import Mathlib

/-
  Verification of the ISTTT2019 cooperative-platoon control code.

  Shallow embedding of the three Python modules:
    * src/Notebooks/symuviapy/contfunc.py        (namespace contfunc)
    * src/Operational/platoon-closed-2nd.py      (namespace Platoon2)
    * src/Operational/platoon-closed-3rd.py      (namespace Platoon3)

  Float arithmetic is idealised as exact rational arithmetic (ℚ); the two
  transcendental library calls the code makes, np.exp in the reference
  sigmoid and the square root inside np.linalg.norm, are embedded through ℝ
  (Real.exp, Real.sqrt).  numpy arrays of shape (rows, vehicles) become
  functions ℕ → ℕ → ℚ, a single array row becomes ℕ → ℚ.
-/

set_option maxHeartbeats 1000000

/-- Model of np.clip(x, lo, hi), which numpy documents as
    min(hi, max(x, lo)). -/
def clip (x lo hi : ℚ) : ℚ := min hi (max x lo)

/-- One horizon row of the 2nd-order state arrays S, V, DV: one rational per
    vehicle index. -/
structure Row2 where
  s : ℕ → ℚ
  v : ℕ → ℚ
  dv : ℕ → ℚ

/-- One horizon row of the 3rd-order state arrays S, V, DV, A. -/
structure Row3 where
  s : ℕ → ℚ
  v : ℕ → ℚ
  dv : ℕ → ℚ
  a : ℕ → ℚ

/-- Model of Python list/array row indexing with negative indices: an index
    j into an array of `len` rows reads row j when 0 ≤ j < len, row len + j
    when -len ≤ j < 0, and raises (none) otherwise. -/
def pyIndex (len : ℕ) (j : ℤ) : Option ℕ :=
  if 0 ≤ j ∧ j < (len : ℤ) then some j.toNat
  else if -(len : ℤ) ≤ j ∧ j < 0 then some ((len : ℤ) + j).toNat
  else none

namespace contfunc

/-- Sample time (contfunc.py). -/
def DT : ℚ := 0.1

/-- CAV max density (contfunc.py). -/
def KC : ℚ := 0.16

/-- HDV max density (contfunc.py). -/
def KH : ℚ := 0.0896

/-- Speed free flow (contfunc.py). -/
def VF : ℚ := 25

/-- Congestion speed (contfunc.py). -/
def W : ℚ := 6.25

/-- Speed drop for relaxation (contfunc.py). -/
def E : ℚ := 25 * 0.3

/-- Time headway CAV (contfunc.py). -/
def GCAV : ℚ := 1 / (KC * W)

/-- Time headway HDV (contfunc.py). -/
def GHDV : ℚ := 1 / (KH * W)

/-- Max acceleration (contfunc.py). -/
def U_MAX : ℚ := 1.5

/-- Min acceleration (contfunc.py). -/
def U_MIN : ℚ := -1.5

/-- Model of find_anticipation_time(veh, d_tau) from contfunc.py.  The
    arguments are the fields the function reads from the vehicle record:
    tau (current time headway), ti (current time), absx (the record's abs
    position), and the headway change d_tau.  Returns (T_a, T_y). -/
def find_anticipation_time (tau ti absx d_tau : ℚ) : ℚ × ℚ :=
  let T_x := tau + d_tau
  let T_0 := tau
  let X_m : ℚ := 0
  let T1 := ti + (X_m - absx) / VF
  let T2 := (VF + W) * (1 / VF - 1 / E) * (T_x - T_0)
  let T3 := E / 2 * (1 / U_MAX - 1 / U_MIN)
  let T4 := (VF + W) * (T_x - T_0) / E
  (T3 + T4, T1 + T2 - T3)

/-- Cost weight C1 (local constant of contfunc.compute_control). -/
def C1 : ℚ := 0.1

/-- Cost weight C2 (local constant of contfunc.compute_control). -/
def C2 : ℚ := 1

/-- Control effort weight C3 (local constant of contfunc.compute_control). -/
def C3 : ℚ := 0.5

/-- Backward costate rows of the inline backward-evolution loop of
    contfunc.compute_control, counted from the top row: backward_aux h X Tg k
    is the (ls, lv) pair at row h - 1 - k, where h is the number of horizon
    rows of the reference.  The source loop walks i from h-1 down to 1 and
    writes row i-1 from row i, with sref = v * tg + 1/KC; row h-1 keeps its
    np.zeros initialisation. -/
def backward_aux (h : ℕ) (X : ℕ → Row2) (Tgref : ℕ → ℕ → ℚ) : ℕ → (ℕ → ℚ) × (ℕ → ℚ)
  | 0 => (fun _ => 0, fun _ => 0)
  | k + 1 =>
    let p := backward_aux h X Tgref k
    let i := h - 1 - k
    ( fun j => p.1 j + DT * (2 * C1 * ((X i).s j - ((X i).v j * Tgref i j + 1 / KC)))
    , fun j => p.2 j + DT * (-2 * C1 * ((X i).s j - ((X i).v j * Tgref i j + 1 / KC)) * Tgref i j
                             - C2 * (X i).dv j - p.1 j) )

/-- Costate pair (ls, lv) at row i of contfunc.compute_control's backward
    pass over h horizon rows. -/
def backward_evolution (h : ℕ) (X : ℕ → Row2) (Tgref : ℕ → ℕ → ℚ) (i : ℕ) :
    (ℕ → ℚ) × (ℕ → ℚ) :=
  backward_aux h X Tgref (h - 1 - i)

/-- Safety margin of solve_tactical_problem (set to 0 for flow
    maximization). -/
def SAFETY : ℚ := 0

/-- Boundary-vehicle record as used by the segment-capacity step of
    solve_tactical_problem: its projected time pg[1] and its time headway
    tau. -/
structure Bound where
  pgt : ℚ
  tau : ℚ

/-- Per-segment CAV capacity from solve_tactical_problem:
    nveh = max((delta - (tau + SAFETY*GHDV)) // GCAV + 1, 0.0). -/
def nveh (delta tau : ℚ) : ℚ :=
  max (((Int.floor ((delta - (tau + SAFETY * GHDV)) / GCAV) + 1 : ℤ) : ℚ)) 0

/-- Capacities of the closed segments: for each consecutive pair of
    boundaries, nveh applied to the projected-time gap and the leading
    boundary's headway (zip(lBoundTail, lBoundHead) in the source). -/
def segCaps (lBound : List Bound) : List ℚ :=
  List.zipWith (fun x y => nveh (x.pgt - y.pgt) y.tau) lBound.tail lBound.dropLast

/-- Number of CAVs allocated per segment (lNumVehAlloc in
    solve_tactical_problem): with more than one boundary, the closed-segment
    capacities followed by the final open segment receiving
    len(lVehAlloc) - sum(lNumVehAlloc); with a single boundary, all CAVs go
    to the one segment. -/
def lNumVehAlloc (lBound : List Bound) (nAlloc : ℕ) : List ℚ :=
  if 1 < lBound.length then
    segCaps lBound ++ [(nAlloc : ℚ) - (segCaps lBound).sum]
  else [(nAlloc : ℚ)]

end contfunc

/-- C3 counterexample: at the concrete vehicle record tau = 1, ti = 0,
    absx = 0 with d_tau = 1, the yield time computed by
    find_anticipation_time differs from the claimed formula
    T1 + (VF+W)/E * (1/VF - 1/E) * (T_x - T_0) - T_anticipation
    (the code multiplies (VF+W) * (1/VF - 1/E) without the 1/E factor and
    subtracts only the T3 part, not the whole anticipation time). -/
theorem c3_counterexample :
    ¬ ((contfunc.find_anticipation_time 1 0 0 1).2
        = (0 + (0 - 0) / contfunc.VF)
          + (contfunc.VF + contfunc.W) / contfunc.E
            * (1 / contfunc.VF - 1 / contfunc.E) * ((1 + 1) - 1)
          - (contfunc.find_anticipation_time 1 0 0 1).1) := by
  norm_num [contfunc.find_anticipation_time, contfunc.VF, contfunc.W, contfunc.E,
    contfunc.U_MAX, contfunc.U_MIN]

/-- C3 (amended): for every vehicle record, find_anticipation_time returns
    T_anticipation = E/2 * (1/U_MAX - 1/U_MIN) + (VF+W)/E * (T_x - T_0) as
    claimed, but the yield time is
    T_yield = T1 + (VF+W) * (1/VF - 1/E) * (T_x - T_0)
                 - E/2 * (1/U_MAX - 1/U_MIN),
    where T1 = ti + (0 - absx)/VF is the time to reach position 0 at the
    free-flow speed VF (not at the vehicle's current speed). -/
theorem c3_anticipation_yield_formulas (tau ti absx d_tau : ℚ) :
    (contfunc.find_anticipation_time tau ti absx d_tau).1
      = contfunc.E / 2 * (1 / contfunc.U_MAX - 1 / contfunc.U_MIN)
        + (contfunc.VF + contfunc.W) / contfunc.E * ((tau + d_tau) - tau)
    ∧ (contfunc.find_anticipation_time tau ti absx d_tau).2
      = (ti + (0 - absx) / contfunc.VF)
        + (contfunc.VF + contfunc.W) * (1 / contfunc.VF - 1 / contfunc.E)
          * ((tau + d_tau) - tau)
        - contfunc.E / 2 * (1 / contfunc.U_MAX - 1 / contfunc.U_MIN) := by
  constructor <;> (simp only [contfunc.find_anticipation_time]; try ring)

/-- C8: for every pair of consecutive boundary vehicles, the gap-allocation
    step of solve_tactical_problem assigns to their segment exactly
    max(floor((gap - (leaderTimeHeadway + SAFETY*GHDV)) / GCAV) + 1, 0)
    CAVs, where gap is the difference of their projected times and
    leaderTimeHeadway is the leading boundary's tau; the CAVs in excess of
    all closed-segment capacities are assigned to the final open segment. -/
theorem c8_segment_capacity (lBound : List contfunc.Bound) (nAlloc : ℕ) (k : ℕ)
    (hk : k + 1 < lBound.length)
    (hl : k < (contfunc.lNumVehAlloc lBound nAlloc).length) :
    (contfunc.lNumVehAlloc lBound nAlloc).get ⟨k, hl⟩
      = max (((Int.floor (((lBound.get ⟨k + 1, hk⟩).pgt
            - (lBound.get ⟨k, Nat.lt_of_succ_lt hk⟩).pgt
            - ((lBound.get ⟨k, Nat.lt_of_succ_lt hk⟩).tau
               + contfunc.SAFETY * contfunc.GHDV)) / contfunc.GCAV) + 1 : ℤ) : ℚ)) 0
    ∧ (contfunc.lNumVehAlloc lBound nAlloc).getLast?
      = some ((nAlloc : ℚ) - (contfunc.segCaps lBound).sum) := by
  have h1 : 1 < lBound.length := by omega
  have hcaps : (contfunc.segCaps lBound).length = lBound.length - 1 := by
    simp [contfunc.segCaps]
  constructor
  · have hk' : k < (contfunc.segCaps lBound).length := by omega
    have := List.get_eq_getElem (contfunc.lNumVehAlloc lBound nAlloc) ⟨k, hl⟩
    rw [this]
    simp only [contfunc.lNumVehAlloc, if_pos h1]
    rw [List.getElem_append_left hk']
    simp only [contfunc.segCaps]
    rw [List.getElem_zipWith]
    simp only [List.getElem_tail, List.getElem_dropLast, contfunc.nveh,
      List.get_eq_getElem]
  · simp only [contfunc.lNumVehAlloc, if_pos h1]
    exact List.getLast?_concat _

/-- C8 witness: two boundary vehicles 10 s apart in projected time, leading
    headway 2 s, 12 CAVs to allocate: the segment takes
    floor((10-2)/GCAV) + 1 = 9 CAVs (GCAV = 1) and the final open segment
    the remaining 3. -/
theorem c8_segment_capacity_witness :
    (contfunc.lNumVehAlloc [⟨0, 2⟩, ⟨10, 1⟩] 12).get ⟨0, by decide⟩ = 9
    ∧ (contfunc.lNumVehAlloc [⟨0, 2⟩, ⟨10, 1⟩] 12).getLast? = some 3 := by
  have h := c8_segment_capacity [⟨0, 2⟩, ⟨10, 1⟩] 12 0 (by decide) (by decide)
  refine ⟨?_, ?_⟩
  · rw [h.1]
    norm_num [contfunc.SAFETY, contfunc.GHDV, contfunc.GCAV, contfunc.KC,
      contfunc.KH, contfunc.W]
  · rw [h.2]
    norm_num [contfunc.segCaps, contfunc.nveh, contfunc.SAFETY, contfunc.GHDV,
      contfunc.GCAV, contfunc.KC, contfunc.KH, contfunc.W]

/-- C2 counterexample: the backward pass inside contfunc.compute_control does
    not satisfy the claimed costate recurrence
    lv[i-1] = lv[i] + DT*(-2*C1*(s-sref)*tg - 2*C2*dv - ls[i]):
    over a 2-row horizon with s = 0, v = 0, dv = 1 and zero reference, the
    code produces lv[0] = -1/10 (its dv coefficient is C2, not 2*C2) while
    the claimed recurrence gives -2/10. -/
theorem c2_counterexample :
    ¬ ((contfunc.backward_evolution 2 (fun _ => ⟨fun _ => 0, fun _ => 0, fun _ => 1⟩)
          (fun _ _ => 0) 0).2 0
        = (contfunc.backward_evolution 2 (fun _ => ⟨fun _ => 0, fun _ => 0, fun _ => 1⟩)
            (fun _ _ => 0) 1).2 0
          + contfunc.DT
            * (-2 * contfunc.C1
                 * (((fun (_ : ℕ) => (⟨fun _ => 0, fun _ => 0, fun _ => 1⟩ : Row2)) 1).s 0
                    - (((fun (_ : ℕ) => (⟨fun _ => 0, fun _ => 0, fun _ => 1⟩ : Row2)) 1).v 0
                        * (fun (_ _ : ℕ) => (0 : ℚ)) 1 0 + 1 / contfunc.KC))
                 * (fun (_ _ : ℕ) => (0 : ℚ)) 1 0
               - 2 * contfunc.C2
                 * (((fun (_ : ℕ) => (⟨fun _ => 0, fun _ => 0, fun _ => 1⟩ : Row2)) 1).dv 0)
               - (contfunc.backward_evolution 2 (fun _ => ⟨fun _ => 0, fun _ => 0, fun _ => 1⟩)
                   (fun _ _ => 0) 1).1 0)) := by
  norm_num [contfunc.backward_evolution, contfunc.backward_aux, contfunc.DT,
    contfunc.C1, contfunc.C2, contfunc.KC]

namespace Platoon2

/-- Platoon length N (platoon-closed-2nd.py). -/
def N : ℕ := 8

/-- Average vehicle length L_AVG. -/
def L_AVG : ℚ := 4.75

/-- Spacing cost weight C_N1. -/
def C_N1 : ℚ := 0.1

/-- Relative-speed cost weight C_N2. -/
def C_N2 : ℚ := 1

/-- Control effort weight C_N3. -/
def C_N3 : ℚ := 0.5

/-- Max acceleration U_MAX. -/
def U_MAX : ℚ := 1.5

/-- Min acceleration U_MIN. -/
def U_MIN : ℚ := -1.5

/-- Sample time DT. -/
def DT : ℚ := 0.1

/-- Samples horizon H. -/
def H : ℕ := 50

/-- Number of simulation samples: int(SIMTIME / DT) with SIMTIME = 90. -/
def nSamples : ℕ := 900

/-- Max speed V_F. -/
def V_F : ℚ := 25

/-- Platoon free-flow speed V_P. -/
def V_P : ℚ := 20

/-- Speed drop for relaxation E. -/
def E : ℚ := 25 * 0.3

/-- Capacity C = 2400 / 3600. -/
def C : ℚ := 2400 / 3600

/-- Jam spacing offset G_X. -/
def G_X : ℚ := 1.5

/-- Model of compute_parameters(g_x, c): returns (s_x, k_x, k_c, w). -/
def compute_parameters (g_x c : ℚ) : ℚ × ℚ × ℚ × ℚ :=
  let s_x := L_AVG + g_x
  let k_x := 1 / s_x
  let k_c := c / V_P
  let w := c / (k_x - k_c)
  (s_x, k_x, k_c, w)

/-- Jam spacing S_X from compute_parameters. -/
def S_X : ℚ := (compute_parameters G_X C).1

/-- Jam density K_X from compute_parameters. -/
def K_X : ℚ := (compute_parameters G_X C).2.1

/-- Critical density K_C from compute_parameters. -/
def K_C : ℚ := (compute_parameters G_X C).2.2.1

/-- Wave speed W from compute_parameters. -/
def W : ℚ := (compute_parameters G_X C).2.2.2

/-- Density at capacity K = C / V_P. -/
def K : ℚ := C / V_P

/-- Desired spacing at capacity S_D = 1/K - L_AVG. -/
def S_D : ℚ := 1 / K - L_AVG

/-- Equilibrium time gap G_T = S_D / V_P. -/
def G_T : ℚ := S_D / V_P

/-- Control difference du = np.hstack((0, u[0:-1] - u[1:])) used by
    forward_evolution: vehicle 0 gets 0, vehicle j gets u[j-1] - u[j]. -/
def du (U : ℕ → ℕ → ℚ) (i j : ℕ) : ℚ :=
  if j = 0 then 0 else U i (j - 1) - U i j

/-- Model of forward_evolution(X, U) from platoon-closed-2nd.py: the loop
    writes, for i < len(S)-1, DV[i+1] = DV[i] + DT*du, S[i+1] = S[i] +
    DT*DV[i], V[i+1] = V[i] + DT*u.  Every row the loop writes is a function
    of row 0 and U only, embedded here as the row sequence generated from
    row 0 (the function extends past row H-1; the solver only reads rows
    below H). -/
def forward_evolution (r0 : Row2) (U : ℕ → ℕ → ℚ) : ℕ → Row2
  | 0 => r0
  | i + 1 =>
    let r := forward_evolution r0 U i
    { dv := fun j => r.dv j + DT * du U i j
      s := fun j => r.s j + DT * r.dv j
      v := fun j => r.v j + DT * U i j }

/-- Backward costate rows of backward_evolution(X, Ref) in
    platoon-closed-2nd.py, counted from the top: backward_aux X Ref k is the
    (ls, lv) pair at row H - 1 - k.  The source walks i from H-1 down to 1
    and writes row i-1 from row i with sref = v * tg + L_AVG; row H-1 keeps
    its np.zeros initialisation. -/
def backward_aux (X : ℕ → Row2) (Ref : ℕ → ℕ → ℚ) : ℕ → (ℕ → ℚ) × (ℕ → ℚ)
  | 0 => (fun _ => 0, fun _ => 0)
  | k + 1 =>
    let p := backward_aux X Ref k
    let i := H - 1 - k
    ( fun j => p.1 j + DT * (2 * C_N1 * ((X i).s j - ((X i).v j * Ref i j + L_AVG)))
    , fun j => p.2 j + DT * (-2 * C_N1 * ((X i).s j - ((X i).v j * Ref i j + L_AVG)) * Ref i j
                             - 2 * C_N2 * (X i).dv j - p.1 j) )

/-- Costate pair (ls, lv) at row i of the backward pass. -/
def backward_evolution (X : ℕ → Row2) (Ref : ℕ → ℕ → ℚ) (i : ℕ) :
    (ℕ → ℚ) × (ℕ → ℚ) :=
  backward_aux X Ref (H - 1 - i)

/-- The five working arrays created by initialize_mpc in
    platoon-closed-2nd.py. -/
structure MPCVars where
  m_S : ℕ → ℕ → ℚ
  m_V : ℕ → ℕ → ℚ
  m_DV : ℕ → ℕ → ℚ
  m_LS : ℕ → ℕ → ℚ
  m_LV : ℕ → ℕ → ℚ

/-- Model of initialize_mpc(mS0, mV0, mDV0): fresh np.zeros arrays with the
    measured state loaded into row 0 and zero costates. -/
def initialize_mpc (mS0 mV0 mDV0 : ℕ → ℚ) : MPCVars :=
  { m_S := fun i j => if i = 0 then mS0 j else 0
    m_V := fun i j => if i = 0 then mV0 j else 0
    m_DV := fun i j => if i = 0 then mDV0 j else 0
    m_LS := fun _ _ => 0
    m_LV := fun _ _ => 0 }

/-- The three persistent plant trajectories of the 2nd-order closed loop. -/
structure Plant2 where
  mS : ℕ → ℕ → ℚ
  mV : ℕ → ℕ → ℚ
  mDV : ℕ → ℕ → ℚ

/-- Model of set_initial_condition(mS0, mV0, mDV0): np.zeros((nSamples, N))
    arrays with the initial condition in row 0. -/
def set_initial_condition (mS0 mV0 mDV0 : ℕ → ℚ) : Plant2 :=
  { mS := fun i j => if i = 0 then mS0 j else 0
    mV := fun i j => if i = 0 then mV0 j else 0
    mDV := fun i j => if i = 0 then mDV0 j else 0 }

/-- Initial spacing row of closed_loop: mS0 = np.ones(N) * (S_D + L_AVG). -/
def mS0 : ℕ → ℚ := fun _ => S_D + L_AVG

/-- Initial speed row of closed_loop: mV0 = np.ones(N) * V_P. -/
def mV0 : ℕ → ℚ := fun _ => V_P

/-- Initial relative-speed row of closed_loop: mDV0 = np.zeros(N). -/
def mDV0 : ℕ → ℚ := fun _ => 0

end Platoon2

namespace Platoon2

/-- The simulation time grid aTime = np.arange(nSamples) * DT read by
    create_ref. -/
def aTime (i : ℕ) : ℚ := i * DT

/-- Model of the inner anticipation_time(T_0, T_F) of create_ref:
    T_a = E/2 * (U_MIN - U_MAX)/(U_MIN * U_MAX) + (V_P + W)/E * (T_F - T_0). -/
def anticipation_time (T_0 T_F : ℚ) : ℚ :=
  E / 2 * (U_MIN - U_MAX) / (U_MIN * U_MAX) + (V_P + W) / E * (T_F - T_0)

/-- One entry of the event tuple consumed by create_ref: the vehicle id, the
    merge time tm, and the time-gap pair tg = (T_0, T_X). -/
structure Event where
  id : ℕ
  tm : ℚ
  tg0 : ℚ
  tgX : ℚ

/-- The sorted gap pair (_T_0, _T_X) of create_ref: swapped when
    T_0 > T_X. -/
def event_sorted_tg (e : Event) : ℚ × ℚ :=
  if e.tg0 > e.tgX then (e.tgX, e.tg0) else (e.tg0, e.tgX)

/-- Anticipation time fAntTime of an event in create_ref. -/
def fAntTime (e : Event) : ℚ :=
  anticipation_time (event_sorted_tg e).1 (event_sorted_tg e).2

/-- Yielding time fYldTime = fMrgTime - fAntTime of an event in
    create_ref. -/
def fYldTime (e : Event) : ℚ := e.tm - fAntTime e

/-- Model of the inner get_sigmoid(v0, vf, yld, ant) of create_ref at a
    single time sample t:
    v0 + (vf - v0) * 1/(1 + exp(-(8 * (t - (yld + ant/2)) / ant))). -/
noncomputable def get_sigmoid (v0 vf yld ant t : ℚ) : ℝ :=
  (v0 : ℝ) + ((vf : ℝ) - (v0 : ℝ))
    * (1 / (1 + Real.exp (-((8 * (t - (yld + ant / 2)) / ant : ℚ) : ℝ))))

/-- One step of create_ref's event loop: the assignment
    mRef[:, iIdTruck] = get_sigmoid(T_0, T_X, fYldTime, fAntTime), which
    overwrites the event's column and keeps every other column. -/
noncomputable def applyEvent (mRef : ℕ → ℕ → ℝ) (e : Event) : ℕ → ℕ → ℝ :=
  fun i j =>
    if j = e.id then get_sigmoid e.tg0 e.tgX (fYldTime e) (fAntTime e) (aTime i)
    else mRef i j

/-- Model of create_ref(dEvent, Teq): a matrix initialised to Teq
    everywhere (np.ones * Teq), then for each event in order the target
    vehicle's column is overwritten with the sigmoid sampled on aTime. -/
noncomputable def create_ref (dEvent : List Event) (Teq : ℚ) : ℕ → ℕ → ℝ :=
  dEvent.foldl applyEvent (fun _ _ => (Teq : ℝ))

/-- Failure signals of compute_control: the blow-up AssertionError
    ("Algorithm does not converge") and the max-iteration AssertionError
    ("Maximum iterations reached by the algorithm"). -/
inductive SolverError where
  | diverged
  | maxIterations
deriving DecidableEq

/-- Frobenius norm of the top H x N block of a matrix, the value
    np.linalg.norm returns on the (H, N) costate difference arrays. -/
noncomputable def frob (M : ℕ → ℕ → ℚ) : ℝ :=
  Real.sqrt (∑ i ∈ Finset.range H, ∑ j ∈ Finset.range N, ((M i j : ℝ)) ^ 2)

/-- Loop state of compute_control: the relaxed costate arrays, the current
    control matrix U_star, the relaxation coefficient ALPHA, the last
    computed error, and the iteration counters n and n_prev. -/
structure LoopState where
  LS : ℕ → ℕ → ℚ
  LV : ℕ → ℕ → ℚ
  Ustar : ℕ → ℕ → ℚ
  alpha : ℚ
  error : ℝ
  n : ℕ
  n_prev : ℕ

/-- Convergence tolerance EPS (local constant of compute_control). -/
def EPS : ℚ := 0.1

/-- One pass of the body of compute_control's loop: U_star from the speed
    costate, clipped; forward pass from the measured row 0; backward pass on
    the updated trajectory; relaxation update of the costates; new error as
    the sum of the two Frobenius norms of the update differences. -/
noncomputable def iterateStep (mX0 : Row2) (mRef : ℕ → ℕ → ℚ) (st : LoopState) :
    LoopState :=
  let Ustar := fun i j => clip (-(st.LV i j) / (2 * C_N3)) U_MIN U_MAX
  let X := forward_evolution mX0 Ustar
  let lS := fun i j => (backward_evolution X mRef i).1 j
  let lV := fun i j => (backward_evolution X mRef i).2 j
  let LS := fun i j => (1 - st.alpha) * st.LS i j + st.alpha * lS i j
  let LV := fun i j => (1 - st.alpha) * st.LV i j + st.alpha * lV i j
  { LS := LS
    LV := LV
    Ustar := Ustar
    alpha := st.alpha
    error := frob (fun i j => LS i j - lS i j) + frob (fun i j => LV i j - lV i j)
    n := st.n
    n_prev := st.n_prev }

open Classical in
/-- One guarded iteration of compute_control: iterateStep, then the blow-up
    check (error > 10e5 raises the divergence AssertionError), then the
    ALPHA schedule: at n >= 5000 the coefficient is reduced
    (max(ALPHA - 0.01, 0.01)), n > 20000 raises the max-iteration
    AssertionError, n_prev accumulates and n restarts; finally n += 1. -/
noncomputable def loopBody (mX0 : Row2) (mRef : ℕ → ℕ → ℚ) (st : LoopState) :
    Except SolverError LoopState :=
  let st1 := iterateStep mX0 mRef st
  if st1.error > 1000000 then Except.error SolverError.diverged
  else if 5000 ≤ st.n then
    if 20000 < st.n then Except.error SolverError.maxIterations
    else Except.ok { st1 with alpha := max (st.alpha - 0.01) 0.01
                              n_prev := st.n + st.n_prev
                              n := 1 }
  else Except.ok { st1 with n := st.n + 1 }

open Classical in
/-- The while loop of compute_control.  fuel is the number of next(step)
    calls the range(N) iterator still allows; the loop body runs while
    error > EPS and fuel remains.  When fuel runs out, next(step) raises
    StopIteration, the handler sets bSuccess = 0 and the loop falls through
    to the normal return of U_star[0] — the same normal return used when
    error <= EPS. -/
noncomputable def loopGo (mX0 : Row2) (mRef : ℕ → ℕ → ℚ) :
    LoopState → ℕ → Except SolverError (ℕ → ℚ)
  | st, 0 => Except.ok (fun j => st.Ustar 0 j)
  | st, fuel + 1 =>
    if st.error ≤ ((EPS : ℚ) : ℝ) then Except.ok (fun j => st.Ustar 0 j)
    else
      match loopBody mX0 mRef st with
      | Except.error e => Except.error e
      | Except.ok st1 => loopGo mX0 mRef st1 fuel

/-- The loop state on entry of compute_control's while loop: costates from
    initialize_mpc (all zero), ALPHA = 0.02, error = 100, n = n_prev = 0.
    U_star is first assigned inside the loop body; the zero matrix stands
    for the not-yet-assigned Python local (any run with fuel >= 1 and
    error > EPS overwrites it before it can be returned). -/
noncomputable def initialLoopState (mX0 : Row2) : LoopState :=
  { LS := (initialize_mpc mX0.s mX0.v mX0.dv).m_LS
    LV := (initialize_mpc mX0.s mX0.v mX0.dv).m_LV
    Ustar := fun _ _ => 0
    alpha := 0.02
    error := 100
    n := 0
    n_prev := 0 }

/-- Model of compute_control(mX0, mRef) from platoon-closed-2nd.py: run the
    relaxation loop with the iteration budget N = 10000 and return
    U_star[0]. -/
noncomputable def compute_control (mX0 : Row2) (mRef : ℕ → ℕ → ℚ) :
    Except SolverError (ℕ → ℚ) :=
  loopGo mX0 mRef (initialLoopState mX0) 10000

end Platoon2

namespace Platoon3

/-- Platoon length N (platoon-closed-3rd.py). -/
def N : ℕ := 8

/-- Average vehicle length L_AVG. -/
def L_AVG : ℚ := 4.75

/-- Nominal actuator lag T_LAG. -/
def T_LAG : ℚ := 0.2

/-- Spacing cost weight C_N1. -/
def C_N1 : ℚ := 0.1

/-- Relative-speed cost weight C_N2. -/
def C_N2 : ℚ := 1

/-- Control effort weight C_N3. -/
def C_N3 : ℚ := 0.5

/-- Max acceleration U_MAX. -/
def U_MAX : ℚ := 1.5

/-- Min acceleration U_MIN. -/
def U_MIN : ℚ := -1.5

/-- Sample time DT. -/
def DT : ℚ := 0.1

/-- Samples horizon H. -/
def H : ℕ := 50

/-- Number of simulation samples: int(SIMTIME / DT) with SIMTIME = 90. -/
def nSamples : ℕ := 900

/-- Acceleration difference da = np.hstack((0, A[i][0:-1] - A[i][1:])) of
    forward_evolution: vehicle 0 gets 0, vehicle j gets a[j-1] - a[j]. -/
def dacc (r : Row3) (j : ℕ) : ℚ :=
  if j = 0 then 0 else r.a (j - 1) - r.a j

/-- Model of forward_evolution(X, U, lag) from platoon-closed-3rd.py: for
    i < len(S)-1, DV[i+1] = DV[i] + DT*da, S[i+1] = S[i] + DT*DV[i],
    V[i+1] = V[i] + DT*A[i], A[i+1] = (1 - DT/lag)*A[i] + DT/lag*u, embedded
    as the row sequence generated from row 0. -/
def forward_evolution (r0 : Row3) (U : ℕ → ℕ → ℚ) (lag : ℚ) : ℕ → Row3
  | 0 => r0
  | i + 1 =>
    let r := forward_evolution r0 U lag i
    { dv := fun j => r.dv j + DT * dacc r j
      s := fun j => r.s j + DT * r.dv j
      v := fun j => r.v j + DT * r.a j
      a := fun j => (1 - DT / lag) * r.a j + DT / lag * U i j }

/-- Backward costate rows of backward_evolution(X, Ref, lag) in
    platoon-closed-3rd.py, counted from the top: backward_aux X Ref lag k is
    the (ls, lv, la) triple at row H - 1 - k.  The source walks i from H-1
    down to 1 and writes row i-1 from row i with sref = v * tg + L_AVG and
    la[i-1] = la[i] + DT*(lv[i] - la[i]/lag); row H-1 keeps its np.zeros
    initialisation. -/
def backward_aux (X : ℕ → Row3) (Ref : ℕ → ℕ → ℚ) (lag : ℚ) :
    ℕ → (ℕ → ℚ) × (ℕ → ℚ) × (ℕ → ℚ)
  | 0 => (fun _ => 0, fun _ => 0, fun _ => 0)
  | k + 1 =>
    let p := backward_aux X Ref lag k
    let i := H - 1 - k
    ( fun j => p.1 j + DT * (2 * C_N1 * ((X i).s j - ((X i).v j * Ref i j + L_AVG)))
    , fun j => p.2.1 j + DT * (-2 * C_N1 * ((X i).s j - ((X i).v j * Ref i j + L_AVG)) * Ref i j
                               - 2 * C_N2 * (X i).dv j - p.1 j)
    , fun j => p.2.2 j + DT * (p.2.1 j - p.2.2 j / lag) )

/-- Costate triple (ls, lv, la) at row i of the backward pass. -/
def backward_evolution (X : ℕ → Row3) (Ref : ℕ → ℕ → ℚ) (lag : ℚ) (i : ℕ) :
    (ℕ → ℚ) × (ℕ → ℚ) × (ℕ → ℚ) :=
  backward_aux X Ref lag (H - 1 - i)

/-- The seven working arrays created by initialize_mpc in
    platoon-closed-3rd.py. -/
structure MPCVars3 where
  m_S : ℕ → ℕ → ℚ
  m_V : ℕ → ℕ → ℚ
  m_DV : ℕ → ℕ → ℚ
  m_A : ℕ → ℕ → ℚ
  m_LS : ℕ → ℕ → ℚ
  m_LV : ℕ → ℕ → ℚ
  m_LA : ℕ → ℕ → ℚ

/-- Model of initialize_mpc(mS0, mV0, mDV0, mA0) from platoon-closed-3rd.py,
    exactly as written in the source: m_S[0] = mS0, m_V[0] = mV0,
    m_DV[0] = mDV0 and m_A[0] = mDV0 — the mA0 argument is accepted but
    never used — with zero costates. -/
def initialize_mpc (mS0 mV0 mDV0 mA0 : ℕ → ℚ) : MPCVars3 :=
  { m_S := fun i j => if i = 0 then mS0 j else 0
    m_V := fun i j => if i = 0 then mV0 j else 0
    m_DV := fun i j => if i = 0 then mDV0 j else 0
    m_A := fun i j => if i = 0 then mDV0 j else 0
    m_LS := fun _ _ => 0
    m_LV := fun _ _ => 0
    m_LA := fun _ _ => 0 }

/-- The four persistent plant trajectories of the 3rd-order closed loop. -/
structure Plant3 where
  mS : ℕ → ℕ → ℚ
  mV : ℕ → ℕ → ℚ
  mDV : ℕ → ℕ → ℚ
  mA : ℕ → ℕ → ℚ

/-- Model of set_initial_condition(mS0, mV0, mDV0, mA0) from
    platoon-closed-3rd.py: np.zeros((nSamples, N)) arrays with the initial
    condition in row 0. -/
def set_initial_condition (mS0 mV0 mDV0 mA0 : ℕ → ℚ) : Plant3 :=
  { mS := fun i j => if i = 0 then mS0 j else 0
    mV := fun i j => if i = 0 then mV0 j else 0
    mDV := fun i j => if i = 0 then mDV0 j else 0
    mA := fun i j => if i = 0 then mA0 j else 0 }

/-- The effective delay the 3rd-order closed loop uses when a delay
    perturbation is declared: d = max(dEvent[0]['d'], 0). -/
def delay_effective (d : ℤ) : ℤ := max d 0

end Platoon3

/-- C1 (amended): when compute_control's iteration budget is exhausted — the
    range(N) iterator raises StopIteration with the error still above EPS —
    the handler sets bSuccess = 0 and the call returns the current
    first-step control vector U_star[0] normally (loopGo with fuel 0 returns
    Except.ok for every loop state); no convergence-failure signal is
    raised on that path. -/
theorem c1_budget_exhausted_returns_ok (mX0 : Row2) (mRef : ℕ → ℕ → ℚ)
    (st : Platoon2.LoopState) :
    Platoon2.loopGo mX0 mRef st 0 = Except.ok (fun j => st.Ustar 0 j) := rfl

/-- C1 counterexample: it is not the case that every loop state with error
    above EPS produces a failure signal when the iteration budget runs out:
    the initial loop state of compute_control (error = 100 > EPS) is a
    concrete state on which the exhausted budget yields Except.ok, not
    Except.error. -/
theorem c1_counterexample :
    ¬ (∀ (mX0 : Row2) (mRef : ℕ → ℕ → ℚ) (st : Platoon2.LoopState),
         ((Platoon2.EPS : ℚ) : ℝ) < st.error →
         ∃ e, Platoon2.loopGo mX0 mRef st 0 = Except.error e) := by
  intro hclaim
  obtain ⟨e, he⟩ := hclaim ⟨fun _ => 0, fun _ => 0, fun _ => 0⟩ (fun _ _ => 0)
    (Platoon2.initialLoopState ⟨fun _ => 0, fun _ => 0, fun _ => 0⟩)
    (by norm_num [Platoon2.initialLoopState, Platoon2.EPS])
  simp [Platoon2.loopGo] at he

/-- C4 counterexample: the speed values held in the harness state arrays are
    not clamped to [U_MIN, U_MAX]: the 2nd-order closed loop initialises
    every vehicle's speed to V_P = 20, which row 0 of the mV trajectory
    array holds, and 20 is outside [-1.5, 1.5]. -/
theorem c4_counterexample :
    ¬ (Platoon2.U_MIN ≤ (Platoon2.set_initial_condition Platoon2.mS0
          Platoon2.mV0 Platoon2.mDV0).mV 0 0
       ∧ (Platoon2.set_initial_condition Platoon2.mS0 Platoon2.mV0
            Platoon2.mDV0).mV 0 0 ≤ Platoon2.U_MAX) := by
  norm_num [Platoon2.set_initial_condition, Platoon2.mV0, Platoon2.V_P,
    Platoon2.U_MIN, Platoon2.U_MAX]

/-- C4 (amended): every control value the solver produces is clamped to
    [U_MIN, U_MAX] — the candidate control -Lv/(2*C_N3) passes through
    np.clip before use — but speed values are not clamped (the harness's
    initial speed V_P = 20 already lies outside the interval). -/
theorem c4_control_clamped (lv : ℚ) :
    Platoon2.U_MIN ≤ clip (-lv / (2 * Platoon2.C_N3)) Platoon2.U_MIN Platoon2.U_MAX
    ∧ clip (-lv / (2 * Platoon2.C_N3)) Platoon2.U_MIN Platoon2.U_MAX ≤ Platoon2.U_MAX := by
  unfold clip
  constructor
  · refine le_min ?_ (le_max_right _ _)
    norm_num [Platoon2.U_MIN, Platoon2.U_MAX]
  · exact min_le_left _ _

/-- C5 counterexample: a declared delay perturbation with negative delay
    value is not rejected: the 3rd-order closed loop computes
    d = max(dEvent[0]['d'], 0), so the declared value -3 is silently coerced
    to the valid delay 0 and the loop continues. -/
theorem c5_counterexample :
    Platoon3.delay_effective (-3) = 0 ∧ (-3 : ℤ) ≠ 0 := by
  constructor
  · decide
  · decide

/-- C5 (amended): the 3rd-order closed loop never raises a DomainError for a
    negative declared delay; every negative delay value is silently coerced
    to 0 by d = max(dEvent[0]['d'], 0) and the loop continues with that
    delay. -/
theorem c5_negative_delay_coerced (d : ℤ) (hd : d < 0) :
    Platoon3.delay_effective d = 0 := by
  simp only [Platoon3.delay_effective]
  omega

/-- C5 witness: the negative declared delay -7 is coerced to 0. -/
theorem c5_negative_delay_coerced_witness :
    Platoon3.delay_effective (-7) = 0 :=
  c5_negative_delay_coerced (-7) (by decide)

/-- C6: evaluation of the 3rd-order initialize_mpc at a state whose
    relative-speed component is 1 and whose measured acceleration component
    mA0 is 2: the source assigns m_A[0] = mDV0, so row 0 of the acceleration
    array reads 1, not the measured acceleration 2 that the spec (and the
    unused mA0 parameter) call for. -/
theorem c6_initialize_mpc_acceleration_bug :
    (Platoon3.initialize_mpc (fun _ => 0) (fun _ => 0) (fun _ => 1)
      (fun _ => 2)).m_A 0 0 = 1
    ∧ (Platoon3.initialize_mpc (fun _ => 0) (fun _ => 0) (fun _ => 1)
        (fun _ => 2)).m_A 0 0 ≠ 2 := by
  constructor
  · simp [Platoon3.initialize_mpc]
  · simp [Platoon3.initialize_mpc]

/-- C10: in the 3rd-order closed loop with an active delay of d steps, at
    every step i < d the read index i - d is negative, and under Python
    negative indexing it resolves to row nSamples + (i - d) near the end of
    the trajectory arrays — a row that set_initial_condition left at its
    np.zeros value — rather than being clamped to row 0. -/
theorem c10_delay_negative_indexing (i d : ℕ) (hid : i < d)
    (hdn : d - i < Platoon3.nSamples) :
    pyIndex Platoon3.nSamples ((i : ℤ) - Platoon3.delay_effective (d : ℤ))
      = some (Platoon3.nSamples - (d - i))
    ∧ ((Platoon3.nSamples - (d - i) : ℕ) : ℤ)
      = (Platoon3.nSamples : ℤ) + ((i : ℤ) - (d : ℤ))
    ∧ Platoon3.nSamples - (d - i) ≠ 0
    ∧ ∀ (s0 v0 dv0 a0 : ℕ → ℚ) (j : ℕ),
        (Platoon3.set_initial_condition s0 v0 dv0 a0).mS
          (Platoon3.nSamples - (d - i)) j = 0 := by
  have hde : Platoon3.delay_effective (d : ℤ) = (d : ℤ) := by
    simp only [Platoon3.delay_effective]
    omega
  have hrow : Platoon3.nSamples - (d - i) ≠ 0 := by
    have : 0 < Platoon3.nSamples - (d - i) := by omega
    omega
  refine ⟨?_, by omega, hrow, ?_⟩
  · rw [hde]
    simp only [pyIndex]
    rw [if_neg (by omega), if_pos (by constructor <;> omega)]
    congr 1
    omega
  · intro s0 v0 dv0 a0 j
    simp only [Platoon3.set_initial_condition]
    rw [if_neg hrow]

/-- C10 witness: with delay d = 5 at step i = 2, the harness reads row
    900 - 3 = 897 of the zero-initialised trajectory, not row 0. -/
theorem c10_delay_negative_indexing_witness :
    pyIndex Platoon3.nSamples ((2 : ℤ) - Platoon3.delay_effective (5 : ℤ))
      = some 897
    ∧ (Platoon3.set_initial_condition (fun _ => 7) (fun _ => 8) (fun _ => 9)
        (fun _ => 10)).mS 897 0 = 0 := by
  have h := c10_delay_negative_indexing 2 5 (by decide) (by decide)
  refine ⟨?_, ?_⟩
  · have := h.1
    norm_num [Platoon3.nSamples] at this ⊢
    exact this
  · have := h.2.2.2 (fun _ => 7) (fun _ => 8) (fun _ => 9) (fun _ => 10) 0
    norm_num [Platoon3.nSamples] at this ⊢
    exact this

namespace Platoon2

/-- Step form of the 2nd-order backward pass: writing row i-1 from row i,
    for 0 < i <= H-1, matches the costate recurrences of the source loop. -/
theorem backward_rec2 (X : ℕ → Row2) (Ref : ℕ → ℕ → ℚ) (i j : ℕ)
    (hi0 : 0 < i) (hiH : i ≤ H - 1) :
    (backward_evolution X Ref (i - 1)).1 j
      = (backward_evolution X Ref i).1 j
        + DT * (2 * C_N1 * ((X i).s j - ((X i).v j * Ref i j + L_AVG)))
    ∧ (backward_evolution X Ref (i - 1)).2 j
      = (backward_evolution X Ref i).2 j
        + DT * (-2 * C_N1 * ((X i).s j - ((X i).v j * Ref i j + L_AVG)) * Ref i j
                - 2 * C_N2 * (X i).dv j - (backward_evolution X Ref i).1 j) := by
  have hH : H = 50 := rfl
  have e1 : H - 1 - (i - 1) = (H - 1 - i) + 1 := by omega
  have e2 : H - 1 - (H - 1 - i) = i := by omega
  constructor <;>
    (simp only [backward_evolution]
     rw [e1]
     simp only [backward_aux]
     rw [e2])

/-- Terminal rows of the 2nd-order backward pass: row H-1 keeps its zero
    initialisation. -/
theorem backward_terminal2 (X : ℕ → Row2) (Ref : ℕ → ℕ → ℚ) (j : ℕ) :
    (backward_evolution X Ref (H - 1)).1 j = 0
    ∧ (backward_evolution X Ref (H - 1)).2 j = 0 := by
  have e : H - 1 - (H - 1) = 0 := Nat.sub_self _
  constructor <;> (simp only [backward_evolution]; rw [e]; rfl)

end Platoon2

namespace Platoon3

/-- Step form of the 3rd-order backward pass: writing row i-1 from row i,
    for 0 < i <= H-1, matches the costate recurrences of the source loop. -/
theorem backward_rec3 (X : ℕ → Row3) (Ref : ℕ → ℕ → ℚ) (lag : ℚ) (i j : ℕ)
    (hi0 : 0 < i) (hiH : i ≤ H - 1) :
    (backward_evolution X Ref lag (i - 1)).1 j
      = (backward_evolution X Ref lag i).1 j
        + DT * (2 * C_N1 * ((X i).s j - ((X i).v j * Ref i j + L_AVG)))
    ∧ (backward_evolution X Ref lag (i - 1)).2.1 j
      = (backward_evolution X Ref lag i).2.1 j
        + DT * (-2 * C_N1 * ((X i).s j - ((X i).v j * Ref i j + L_AVG)) * Ref i j
                - 2 * C_N2 * (X i).dv j - (backward_evolution X Ref lag i).1 j)
    ∧ (backward_evolution X Ref lag (i - 1)).2.2 j
      = (backward_evolution X Ref lag i).2.2 j
        + DT * ((backward_evolution X Ref lag i).2.1 j
                - (backward_evolution X Ref lag i).2.2 j / lag) := by
  have hH : H = 50 := rfl
  have e1 : H - 1 - (i - 1) = (H - 1 - i) + 1 := by omega
  have e2 : H - 1 - (H - 1 - i) = i := by omega
  refine ⟨?_, ?_, ?_⟩ <;>
    (simp only [backward_evolution]
     rw [e1]
     simp only [backward_aux]
     try rw [e2])

/-- Terminal rows of the 3rd-order backward pass: row H-1 keeps its zero
    initialisation. -/
theorem backward_terminal3 (X : ℕ → Row3) (Ref : ℕ → ℕ → ℚ) (lag : ℚ) (j : ℕ) :
    (backward_evolution X Ref lag (H - 1)).1 j = 0
    ∧ (backward_evolution X Ref lag (H - 1)).2.1 j = 0
    ∧ (backward_evolution X Ref lag (H - 1)).2.2 j = 0 := by
  have e : H - 1 - (H - 1) = 0 := Nat.sub_self _
  refine ⟨?_, ?_, ?_⟩ <;> (simp only [backward_evolution]; rw [e]; rfl)

end Platoon3

namespace contfunc

/-- Step form of the backward pass inside contfunc.compute_control over h
    horizon rows: writing row i-1 from row i, for 0 < i <= h-1, matches the
    recurrences as written in the source — note the relative-speed term is
    C2 * dv, not 2 * C2 * dv. -/
theorem backward_rec_cf (h : ℕ) (X : ℕ → Row2) (Tgref : ℕ → ℕ → ℚ) (i j : ℕ)
    (hi0 : 0 < i) (hih : i ≤ h - 1) :
    (backward_evolution h X Tgref (i - 1)).1 j
      = (backward_evolution h X Tgref i).1 j
        + DT * (2 * C1 * ((X i).s j - ((X i).v j * Tgref i j + 1 / KC)))
    ∧ (backward_evolution h X Tgref (i - 1)).2 j
      = (backward_evolution h X Tgref i).2 j
        + DT * (-2 * C1 * ((X i).s j - ((X i).v j * Tgref i j + 1 / KC)) * Tgref i j
                - C2 * (X i).dv j - (backward_evolution h X Tgref i).1 j) := by
  have e1 : h - 1 - (i - 1) = (h - 1 - i) + 1 := by omega
  have e2 : h - 1 - (h - 1 - i) = i := by omega
  constructor <;>
    (simp only [backward_evolution]
     rw [e1]
     simp only [backward_aux]
     rw [e2])

/-- Terminal rows of contfunc.compute_control's backward pass: row h-1 keeps
    its zero initialisation. -/
theorem backward_terminal_cf (h : ℕ) (X : ℕ → Row2) (Tgref : ℕ → ℕ → ℚ) (j : ℕ) :
    (backward_evolution h X Tgref (h - 1)).1 j = 0
    ∧ (backward_evolution h X Tgref (h - 1)).2 j = 0 := by
  have e : h - 1 - (h - 1) = 0 := Nat.sub_self _
  constructor <;> (simp only [backward_evolution]; rw [e]; rfl)

end contfunc

/-- C2 (amended): in the 2nd- and 3rd-order operational backward passes
    every interior horizon row satisfies the claimed costate recurrences
    with sref = v*tg + L_AVG
    (ls[i-1] = ls[i] + DT*2*C_N1*(s-sref),
     lv[i-1] = lv[i] + DT*(-2*C_N1*(s-sref)*tg - 2*C_N2*dv - ls[i]),
     and for the 3rd order la[i-1] = la[i] + DT*(lv[i] - la[i]/lag)),
    and the terminal costate row H-1 is zero; the backward pass inside
    contfunc.compute_control satisfies the same ls recurrence and terminal
    condition with sref = v*tg + 1/KC, but its speed-costate recurrence uses
    the relative-speed term C2*dv, not the claimed 2*C2*dv. -/
theorem c2_backward_recurrences
    (X2 : ℕ → Row2) (Ref2 : ℕ → ℕ → ℚ)
    (X3 : ℕ → Row3) (Ref3 : ℕ → ℕ → ℚ) (lag : ℚ)
    (Xc : ℕ → Row2) (Tgc : ℕ → ℕ → ℚ) (h : ℕ)
    (i : ℕ) (hi0 : 0 < i) (hiH : i ≤ Platoon2.H - 1) (j : ℕ)
    (ic : ℕ) (hc0 : 0 < ic) (hch : ic ≤ h - 1) :
    ((Platoon2.backward_evolution X2 Ref2 (i - 1)).1 j
      = (Platoon2.backward_evolution X2 Ref2 i).1 j
        + Platoon2.DT * (2 * Platoon2.C_N1
            * ((X2 i).s j - ((X2 i).v j * Ref2 i j + Platoon2.L_AVG))))
    ∧ ((Platoon2.backward_evolution X2 Ref2 (i - 1)).2 j
      = (Platoon2.backward_evolution X2 Ref2 i).2 j
        + Platoon2.DT * (-2 * Platoon2.C_N1
            * ((X2 i).s j - ((X2 i).v j * Ref2 i j + Platoon2.L_AVG)) * Ref2 i j
            - 2 * Platoon2.C_N2 * (X2 i).dv j
            - (Platoon2.backward_evolution X2 Ref2 i).1 j))
    ∧ ((Platoon2.backward_evolution X2 Ref2 (Platoon2.H - 1)).1 j = 0)
    ∧ ((Platoon2.backward_evolution X2 Ref2 (Platoon2.H - 1)).2 j = 0)
    ∧ ((Platoon3.backward_evolution X3 Ref3 lag (i - 1)).1 j
      = (Platoon3.backward_evolution X3 Ref3 lag i).1 j
        + Platoon3.DT * (2 * Platoon3.C_N1
            * ((X3 i).s j - ((X3 i).v j * Ref3 i j + Platoon3.L_AVG))))
    ∧ ((Platoon3.backward_evolution X3 Ref3 lag (i - 1)).2.1 j
      = (Platoon3.backward_evolution X3 Ref3 lag i).2.1 j
        + Platoon3.DT * (-2 * Platoon3.C_N1
            * ((X3 i).s j - ((X3 i).v j * Ref3 i j + Platoon3.L_AVG)) * Ref3 i j
            - 2 * Platoon3.C_N2 * (X3 i).dv j
            - (Platoon3.backward_evolution X3 Ref3 lag i).1 j))
    ∧ ((Platoon3.backward_evolution X3 Ref3 lag (i - 1)).2.2 j
      = (Platoon3.backward_evolution X3 Ref3 lag i).2.2 j
        + Platoon3.DT * ((Platoon3.backward_evolution X3 Ref3 lag i).2.1 j
            - (Platoon3.backward_evolution X3 Ref3 lag i).2.2 j / lag))
    ∧ ((Platoon3.backward_evolution X3 Ref3 lag (Platoon3.H - 1)).1 j = 0)
    ∧ ((Platoon3.backward_evolution X3 Ref3 lag (Platoon3.H - 1)).2.1 j = 0)
    ∧ ((Platoon3.backward_evolution X3 Ref3 lag (Platoon3.H - 1)).2.2 j = 0)
    ∧ ((contfunc.backward_evolution h Xc Tgc (ic - 1)).1 j
      = (contfunc.backward_evolution h Xc Tgc ic).1 j
        + contfunc.DT * (2 * contfunc.C1
            * ((Xc ic).s j - ((Xc ic).v j * Tgc ic j + 1 / contfunc.KC))))
    ∧ ((contfunc.backward_evolution h Xc Tgc (ic - 1)).2 j
      = (contfunc.backward_evolution h Xc Tgc ic).2 j
        + contfunc.DT * (-2 * contfunc.C1
            * ((Xc ic).s j - ((Xc ic).v j * Tgc ic j + 1 / contfunc.KC)) * Tgc ic j
            - contfunc.C2 * (Xc ic).dv j
            - (contfunc.backward_evolution h Xc Tgc ic).1 j))
    ∧ ((contfunc.backward_evolution h Xc Tgc (h - 1)).1 j = 0)
    ∧ ((contfunc.backward_evolution h Xc Tgc (h - 1)).2 j = 0) := by
  have h2 := Platoon2.backward_rec2 X2 Ref2 i j hi0 hiH
  have h2t := Platoon2.backward_terminal2 X2 Ref2 j
  have h3 := Platoon3.backward_rec3 X3 Ref3 lag i j hi0 hiH
  have h3t := Platoon3.backward_terminal3 X3 Ref3 lag j
  have hc := contfunc.backward_rec_cf h Xc Tgc ic j hc0 hch
  have hct := contfunc.backward_terminal_cf h Xc Tgc j
  exact ⟨h2.1, h2.2, h2t.1, h2t.2, h3.1, h3.2.1, h3.2.2,
    h3t.1, h3t.2.1, h3t.2.2, hc.1, hc.2, hct.1, hct.2⟩

/-- C2 witness: with all-zero states and reference over the 50-row horizon,
    the theorem applied at i = 49 and the terminal row gives
    ls[48] = 0 + DT * 2 * C_N1 * (0 - L_AVG) = -19/200 for the 2nd-order
    backward pass. -/
theorem c2_backward_recurrences_witness :
    (Platoon2.backward_evolution (fun _ => ⟨fun _ => 0, fun _ => 0, fun _ => 0⟩)
        (fun _ _ => 0) (49 - 1)).1 0 = -19/200 := by
  have h := c2_backward_recurrences
    (fun _ => ⟨fun _ => 0, fun _ => 0, fun _ => 0⟩) (fun _ _ => 0)
    (fun _ => ⟨fun _ => 0, fun _ => 0, fun _ => 0, fun _ => 0⟩) (fun _ _ => 0) 1
    (fun _ => ⟨fun _ => 0, fun _ => 0, fun _ => 0⟩) (fun _ _ => 0) 2
    49 (by norm_num) (by norm_num [Platoon2.H]) 0 1 (by norm_num) (by norm_num)
  have hterm : (Platoon2.backward_evolution
      (fun _ => ⟨fun _ => 0, fun _ => 0, fun _ => 0⟩) (fun _ _ => 0) 49).1 0 = 0 := by
    have := h.2.2.1
    norm_num [Platoon2.H] at this
    exact this
  rw [h.1, hterm]
  norm_num [Platoon2.DT, Platoon2.C_N1, Platoon2.L_AVG]

namespace Platoon2

/-- Columns that belong to no event of a list are untouched by create_ref's
    event loop. -/
theorem foldl_applyEvent_untouched (l : List Event) (g : ℕ → ℕ → ℝ) (i j : ℕ)
    (hj : j ∉ l.map Event.id) :
    l.foldl applyEvent g i j = g i j := by
  induction l generalizing g with
  | nil => rfl
  | cons e t ih =>
    simp only [List.map_cons, List.mem_cons] at hj
    push_neg at hj
    rw [List.foldl_cons, ih (applyEvent g e) hj.2]
    exact if_neg hj.1

end Platoon2

/-- C9: for every event list and nominal time gap Teq, create_ref returns
    the matrix that equals Teq in every column belonging to a vehicle with
    no scheduled event, while a scheduled vehicle's column (written last by
    event e) holds the logistic curve
    tg0 + (tgX - tg0) / (1 + exp(-8*(t - (fYldTime + fAntTime/2)) / fAntTime))
    sampled at every harness step t = aTime i — a rise centered at
    yield + ant/2. -/
theorem c9_create_ref_columns (dEvent : List Platoon2.Event) (Teq : ℚ) (i j : ℕ) :
    (j ∉ dEvent.map Platoon2.Event.id →
      Platoon2.create_ref dEvent Teq i j = (Teq : ℝ))
    ∧ (∀ (pre : List Platoon2.Event) (e : Platoon2.Event) (post : List Platoon2.Event),
        dEvent = pre ++ e :: post → e.id = j →
        j ∉ post.map Platoon2.Event.id →
        Platoon2.create_ref dEvent Teq i j
          = (e.tg0 : ℝ) + ((e.tgX : ℝ) - (e.tg0 : ℝ))
            * (1 / (1 + Real.exp (-((8 * (Platoon2.aTime i
                  - (Platoon2.fYldTime e + Platoon2.fAntTime e / 2))
                  / Platoon2.fAntTime e : ℚ) : ℝ))))) := by
  constructor
  · intro hj
    exact Platoon2.foldl_applyEvent_untouched dEvent _ i j hj
  · intro pre e post hsplit hid hpost
    subst hsplit
    unfold Platoon2.create_ref
    rw [List.foldl_append, List.foldl_cons,
      Platoon2.foldl_applyEvent_untouched post _ i j hpost]
    simp only [Platoon2.applyEvent]
    rw [if_pos hid.symm]
    rfl

/-- C9 witness: a single event for vehicle 1 (tm = 30, gap 1 to 2) with
    Teq = 2: column 0 reads Teq and column 1 reads the logistic curve at
    t = aTime 0. -/
theorem c9_create_ref_columns_witness :
    Platoon2.create_ref [⟨1, 30, 1, 2⟩] 2 0 0 = ((2 : ℚ) : ℝ)
    ∧ Platoon2.create_ref [⟨1, 30, 1, 2⟩] 2 0 1
      = ((1 : ℚ) : ℝ) + (((2 : ℚ) : ℝ) - ((1 : ℚ) : ℝ))
        * (1 / (1 + Real.exp (-((8 * (Platoon2.aTime 0
              - (Platoon2.fYldTime ⟨1, 30, 1, 2⟩ + Platoon2.fAntTime ⟨1, 30, 1, 2⟩ / 2))
              / Platoon2.fAntTime ⟨1, 30, 1, 2⟩ : ℚ) : ℝ)))) := by
  constructor
  · exact (c9_create_ref_columns [⟨1, 30, 1, 2⟩] 2 0 0).1 (by simp)
  · exact (c9_create_ref_columns [⟨1, 30, 1, 2⟩] 2 0 1).2 [] ⟨1, 30, 1, 2⟩ []
      rfl rfl (by simp)

namespace Platoon2

/-- With an identically-zero control matrix, the forward pass reproduces the
    initial row at every horizon step whenever the initial relative speed is
    zero: speeds and spacings stay constant and the relative speed stays
    zero. -/
theorem forward_steady (r0 : Row2) (U : ℕ → ℕ → ℚ)
    (hU : ∀ i j, U i j = 0) (hdv : ∀ j, r0.dv j = 0) (i : ℕ) :
    (∀ j, (forward_evolution r0 U i).s j = r0.s j)
    ∧ (∀ j, (forward_evolution r0 U i).v j = r0.v j)
    ∧ (∀ j, (forward_evolution r0 U i).dv j = 0) := by
  induction i with
  | zero => exact ⟨fun _ => rfl, fun _ => rfl, hdv⟩
  | succ i ih =>
    refine ⟨fun j => ?_, fun j => ?_, fun j => ?_⟩ <;>
      simp only [forward_evolution]
    · rw [ih.1 j, ih.2.2 j]; ring
    · rw [ih.2.1 j, hU i j]; ring
    · rw [ih.2.2 j]
      have hdu : du U i j = 0 := by
        simp only [du, hU]
        split <;> ring
      rw [hdu]; ring

/-- On a trajectory that tracks the reference exactly (s = v*tg + L_AVG,
    dv = 0 at every row), every row of the backward pass is zero. -/
theorem backward_steady (X : ℕ → Row2) (Ref : ℕ → ℕ → ℚ)
    (hX : ∀ i j, (X i).s j = (X i).v j * Ref i j + L_AVG)
    (hdv : ∀ i j, (X i).dv j = 0) (k : ℕ) :
    (∀ j, (backward_aux X Ref k).1 j = 0)
    ∧ (∀ j, (backward_aux X Ref k).2 j = 0) := by
  induction k with
  | zero => exact ⟨fun _ => rfl, fun _ => rfl⟩
  | succ k ih =>
    refine ⟨fun j => ?_, fun j => ?_⟩ <;>
      simp only [backward_aux]
    · rw [ih.1 j, hX (H - 1 - k) j]; ring
    · rw [ih.2 j, ih.1 j, hX (H - 1 - k) j, hdv (H - 1 - k) j]; ring

/-- A matrix that is zero at every entry has a zero Frobenius norm. -/
theorem frob_eq_zero (M : ℕ → ℕ → ℚ) (hM : ∀ i j, M i j = 0) : frob M = 0 := by
  simp [frob, hM]

/-- The control matrix the first iterate computes from the zero speed
    costate is zero everywhere, and the iterate's error is zero when the
    initial state is steady for the reference window. -/
theorem iterate_steady (mX0 : Row2) (tg : ℕ → ℚ) (mRef : ℕ → ℕ → ℚ)
    (hs : ∀ j, mX0.s j = mX0.v j * tg j + L_AVG)
    (hdv : ∀ j, mX0.dv j = 0)
    (href : ∀ i j, mRef i j = tg j) :
    (∀ i j, (iterateStep mX0 mRef (initialLoopState mX0)).Ustar i j = 0)
    ∧ (iterateStep mX0 mRef (initialLoopState mX0)).error = 0 := by
  have hLV : ∀ i j, (initialLoopState mX0).LV i j = 0 := fun _ _ => rfl
  have hLS : ∀ i j, (initialLoopState mX0).LS i j = 0 := fun _ _ => rfl
  have hU : ∀ i j,
      clip (-((initialLoopState mX0).LV i j) / (2 * C_N3)) U_MIN U_MAX = 0 := by
    intro i j
    rw [hLV i j]
    norm_num [clip, C_N3, U_MIN, U_MAX]
  have hfwd := forward_steady mX0
    (fun i j => clip (-((initialLoopState mX0).LV i j) / (2 * C_N3)) U_MIN U_MAX)
    hU hdv
  have hX : ∀ i j,
      ((forward_evolution mX0
        (fun i j => clip (-((initialLoopState mX0).LV i j) / (2 * C_N3)) U_MIN U_MAX)) i).s j
      = ((forward_evolution mX0
        (fun i j => clip (-((initialLoopState mX0).LV i j) / (2 * C_N3)) U_MIN U_MAX)) i).v j
        * mRef i j + L_AVG := by
    intro i j
    rw [(hfwd i).1 j, (hfwd i).2.1 j, href i j]
    exact hs j
  have hXdv : ∀ i j,
      ((forward_evolution mX0
        (fun i j => clip (-((initialLoopState mX0).LV i j) / (2 * C_N3)) U_MIN U_MAX)) i).dv j
      = 0 := fun i j => (hfwd i).2.2 j
  have hbw := backward_steady _ mRef hX hXdv
  constructor
  · intro i j
    simp only [iterateStep]
    exact hU i j
  · simp only [iterateStep]
    rw [frob_eq_zero, frob_eq_zero]
    · ring
    · intro i j
      rw [hLV i j]
      have := (hbw (H - 1 - i)).2 j
      simp only [backward_evolution]
      rw [this]
      ring
    · intro i j
      rw [hLS i j]
      have := (hbw (H - 1 - i)).1 j
      simp only [backward_evolution]
      rw [this]
      ring

/-- Unfolding of the while loop when the current error is above EPS and the
    body succeeds. -/
theorem loopGo_step (mX0 : Row2) (mRef : ℕ → ℕ → ℚ) (st st1 : LoopState) (fuel : ℕ)
    (hgt : ¬ st.error ≤ ((EPS : ℚ) : ℝ))
    (hb : loopBody mX0 mRef st = Except.ok st1) :
    loopGo mX0 mRef st (fuel + 1) = loopGo mX0 mRef st1 fuel := by
  rw [loopGo, if_neg hgt, hb]

/-- Unfolding of the while loop when the current error meets EPS: the loop
    exits and returns U_star[0]. -/
theorem loopGo_done (mX0 : Row2) (mRef : ℕ → ℕ → ℚ) (st : LoopState) (fuel : ℕ)
    (hle : st.error ≤ ((EPS : ℚ) : ℝ)) :
    loopGo mX0 mRef st (fuel + 1) = Except.ok (fun j => st.Ustar 0 j) := by
  rw [loopGo, if_pos hle]

end Platoon2

/-- C7: for every platoon whose initial state is the steady state matching
    the reference — spacing = speed * timegap + L_AVG and zero relative
    speed for every vehicle — calling compute_control with a reference
    window equal to that time gap everywhere converges (the first iterate's
    error is already 0 <= EPS) and returns the exactly-zero first-step
    control, the control matrix of the converged iterate being zero at every
    horizon step. -/
theorem c7_steady_state_zero_control (mX0 : Row2) (tg : ℕ → ℚ)
    (mRef : ℕ → ℕ → ℚ)
    (hs : ∀ j, mX0.s j = mX0.v j * tg j + Platoon2.L_AVG)
    (hdv : ∀ j, mX0.dv j = 0)
    (href : ∀ i j, mRef i j = tg j) :
    Platoon2.compute_control mX0 mRef = Except.ok (fun _ => 0)
    ∧ (Platoon2.iterateStep mX0 mRef (Platoon2.initialLoopState mX0)).error = 0
    ∧ ∀ i j, (Platoon2.iterateStep mX0 mRef (Platoon2.initialLoopState mX0)).Ustar i j = 0 := by
  obtain ⟨hU0, herr⟩ := Platoon2.iterate_steady mX0 tg mRef hs hdv href
  refine ⟨?_, herr, hU0⟩
  set st0 := Platoon2.initialLoopState mX0 with hst0
  set st1 := Platoon2.iterateStep mX0 mRef st0 with hst1
  have hst0err : st0.error = 100 := rfl
  have hst0n : st0.n = 0 := rfl
  have hbody : Platoon2.loopBody mX0 mRef st0
      = Except.ok { st1 with n := st0.n + 1 } := by
    simp only [Platoon2.loopBody, ← hst1]
    rw [if_neg (by rw [herr]; norm_num), if_neg (by rw [hst0n]; norm_num)]
  have hgt : ¬ st0.error ≤ ((Platoon2.EPS : ℚ) : ℝ) := by
    rw [hst0err]
    norm_num [Platoon2.EPS]
  have hle1 : ({ st1 with n := st0.n + 1 } : Platoon2.LoopState).error
      ≤ ((Platoon2.EPS : ℚ) : ℝ) := by
    show st1.error ≤ ((Platoon2.EPS : ℚ) : ℝ)
    rw [herr]
    norm_num [Platoon2.EPS]
  have h1 : (10000 : ℕ) = 9999 + 1 := by norm_num
  have h2 : (9999 : ℕ) = 9998 + 1 := by norm_num
  unfold Platoon2.compute_control
  rw [← hst0, h1, Platoon2.loopGo_step mX0 mRef st0 _ 9999 hgt hbody, h2,
    Platoon2.loopGo_done mX0 mRef _ 9998 hle1]
  congr 1
  funext j
  exact hU0 0 j

/-- C7 witness: the concrete steady platoon with speed 10, time gap 1 and
    spacing 10 + L_AVG = 14.75 under the constant unit reference window:
    compute_control returns the zero control. -/
theorem c7_steady_state_zero_control_witness :
    Platoon2.compute_control ⟨fun _ => 14.75, fun _ => 10, fun _ => 0⟩
      (fun _ _ => 1) = Except.ok (fun _ => 0) := by
  exact (c7_steady_state_zero_control ⟨fun _ => 14.75, fun _ => 10, fun _ => 0⟩
    (fun _ => 1) (fun _ _ => 1)
    (fun j => by norm_num [Platoon2.L_AVG])
    (fun j => rfl)
    (fun i j => rfl)).1
